import Mathlib

/-!
Shallow embedding of the apis-edge camera capture core.

Sources embedded:
* `pi-legacy/camera/usb.py` — `USBCamera` (OpenCV `VideoCapture` backend)
* `apis-edge/pi/camera/picamera.py` — `PiCamera` (picamera2 backend)
* `apis-edge/pi/camera/base.py` — `Frame` / `Frame.create`
* `apis-edge/pi/camera/__init__.py` — `create_camera` factory
* `apis-edge/pi/main.py` — the capture supervisor loop

Modelling conventions:
* Timestamps (`time.time()` / `datetime.now()`) are rationals supplied by the
  environment of each call.  The code stores the `Frame` timestamp as an
  ISO-8601 string of the capture instant; we keep the instant itself.
* Backend handles (`cv2.VideoCapture` objects, `Picamera2` objects) are
  values carrying an identifier.  Ghost fields `acquired`/`released` record
  which handle identifiers were ever acquired and which were explicitly
  released (`cap.release()` / `picam.stop(); picam.close()`), so that
  resource-leak claims are statable.
* Python exceptions raised by the native libraries are modelled as boolean
  flags in an environment record; the `try/except` blocks of the source
  become the corresponding branches.  All modelled functions are total,
  mirroring the source's "never raises" boundary.
-/

/-- A captured pixel buffer.  Only its numpy shape matters to the claims:
`dim0` is `data.shape[0]` (rows), `dim1` is `data.shape[1]` (columns). -/
structure Buffer where
  dim0 : Nat
  dim1 : Nat
deriving DecidableEq

/-- `Frame` dataclass from `apis-edge/pi/camera/base.py` (lines 14-30). -/
structure Frame where
  data : Buffer
  timestamp : ℚ
  sequence : Nat
  width : Nat
  height : Nat
deriving DecidableEq

/-- `Frame.create` from `apis-edge/pi/camera/base.py` (lines 32-56):
`height, width = data.shape[:2]`, so width/height are derived from the
buffer itself.  The optional timestamp argument defaults to the capture
instant, which the caller supplies here. -/
def Frame.create (data : Buffer) (sequence : Nat) (timestamp : ℚ) : Frame :=
  { data := data, timestamp := timestamp, sequence := sequence,
    width := data.dim1, height := data.dim0 }

/-- `self._fps_window = 30` (usb.py line 56, picamera.py line 58). -/
def fpsWindow : Nat := 30

/-- `if len(self._frame_times) > self._fps_window:
      self._frame_times = self._frame_times[-self._fps_window:]`
(usb.py lines 146-147, picamera.py lines 151-152): keep the last 30. -/
def trimTimes (l : List ℚ) : List ℚ :=
  if l.length > fpsWindow then l.drop (l.length - fpsWindow) else l

/-- `if len(self._frame_times) >= 2: elapsed = last - first;
     if elapsed > 0: self._measured_fps = (len - 1) / elapsed`
(usb.py lines 150-153, picamera.py lines 155-158).  When the guard fails the
previous value is kept. -/
def updateFps (old : ℚ) (times : List ℚ) : ℚ :=
  if 2 ≤ times.length then
    if 0 < times.getLastD 0 - times.headD 0 then
      ((times.length - 1 : Nat) : ℚ) / (times.getLastD 0 - times.headD 0)
    else old
  else old

/-- A `cv2.VideoCapture` handle: `opened` is the value `isOpened()` reported
when the device was acquired. -/
structure Handle where
  id : Nat
  opened : Bool
deriving DecidableEq

/-- State of a `USBCamera` instance (`pi-legacy/camera/usb.py`, `__init__`
lines 28-61).  `acquired`/`released`/`nextId` are ghost bookkeeping for
handle lifetimes; everything else mirrors the python attributes. -/
structure USBCamera where
  cap : Option Handle
  deviceId : Nat
  width : Nat
  height : Nat
  targetFps : Nat
  retryInterval : Nat
  sequence : Nat
  frameTimes : List ℚ
  measuredFps : ℚ
  actualWidth : Nat
  actualHeight : Nat
  acquired : List Nat
  released : List Nat
  nextId : Nat
deriving DecidableEq

/-- `USBCamera.__init__` (usb.py lines 28-61). -/
def initUSB (deviceId width height fps retryInterval : Nat) : USBCamera :=
  { cap := none, deviceId := deviceId, width := width, height := height,
    targetFps := fps, retryInterval := retryInterval,
    sequence := 0, frameTimes := [], measuredFps := 0,
    actualWidth := width, actualHeight := height,
    acquired := [], released := [], nextId := 0 }

/-- `USBCamera._cleanup` (usb.py lines 167-174): release the handle if one
is held (errors during `release()` are swallowed) and clear the slot. -/
def usbCleanup (c : USBCamera) : USBCamera :=
  match c.cap with
  | none => c
  | some h => { c with cap := none, released := c.released ++ [h.id] }

/-- `USBCamera.close` (usb.py lines 162-165). -/
def usbClose (c : USBCamera) : USBCamera :=
  usbCleanup c

/-- `USBCamera.is_open` (usb.py lines 176-182):
`self._cap is not None and self._cap.isOpened()`. -/
def usbIsOpen (c : USBCamera) : Bool :=
  match c.cap with
  | some h => h.opened
  | none => false

/-- Environment of one `USBCamera.open()` call: what the OpenCV layer does.
`ctorRaises`: `cv2.VideoCapture(...)` itself raises; `isOpened`: result of
`self._cap.isOpened()`; `raisesMid`: one of the `set` calls raises;
`grantedWidth/Height`: what `cap.get(...)` reports after negotiation;
`testRead`: the self-test `cap.read()` yields a frame. -/
structure USBOpenEnv where
  ctorRaises : Bool
  isOpened : Bool
  raisesMid : Bool
  grantedWidth : Nat
  grantedHeight : Nat
  testRead : Bool
deriving DecidableEq

/-- `USBCamera.open` (usb.py lines 63-123).  Paths, in source order:
1. an exception in `cv2.VideoCapture` lands in `except` → `_cleanup`, `False`;
2. `not self._cap.isOpened()` → `False` with **no** cleanup (line 87);
3. an exception while configuring → `except` → `_cleanup`, `False`;
4. the granted resolution is re-queried into `_actual_width/_actual_height`;
5. failed self-test read → `_cleanup`, `False` (lines 101-104);
6. success → `_sequence = 0`, `_frame_times = []`, `True` (lines 106-118).
`_measured_fps` is not touched on any path. -/
def usbOpen (env : USBOpenEnv) (c : USBCamera) : Bool × USBCamera :=
  if env.ctorRaises then (false, usbCleanup c)
  else
    let c1 : USBCamera :=
      { c with cap := some ⟨c.nextId, env.isOpened⟩,
               acquired := c.acquired ++ [c.nextId],
               nextId := c.nextId + 1 }
    if env.isOpened = false then (false, c1)
    else if env.raisesMid then (false, usbCleanup c1)
    else
      let c2 : USBCamera :=
        { c1 with actualWidth := env.grantedWidth,
                  actualHeight := env.grantedHeight }
      if env.testRead = false then (false, usbCleanup c2)
      else (true, { c2 with sequence := 0, frameTimes := [] })

/-- Environment of one `read()` call: `capture = none` models
`ret == False or frame is None` (a failed or empty capture, including an
exception inside the native call); `now` is the capture instant. -/
structure ReadEnv where
  capture : Option Buffer
  now : ℚ
deriving DecidableEq

/-- `USBCamera.read` (usb.py lines 125-160): `None` if not open or the
capture fails; otherwise append the timestamp, trim the window, update the
measured rate, increment the sequence counter and build a `Frame`. -/
def usbRead (env : ReadEnv) (c : USBCamera) : Option Frame × USBCamera :=
  if usbIsOpen c = false then (none, c)
  else
    match env.capture with
    | none => (none, c)
    | some buf =>
        let times := trimTimes (c.frameTimes ++ [env.now])
        let c2 : USBCamera :=
          { c with frameTimes := times,
                   measuredFps := updateFps c.measuredFps times,
                   sequence := c.sequence + 1 }
        (some (Frame.create buf c2.sequence env.now), c2)

/-- `USBCamera.fps` property (usb.py lines 196-203). -/
def usbFps (c : USBCamera) : ℚ :=
  c.measuredFps

/-- `USBCamera.resolution` property (usb.py lines 184-194). -/
def usbResolution (c : USBCamera) : Nat × Nat :=
  (c.actualWidth, c.actualHeight)

/-- State of a `PiCamera` instance (`apis-edge/pi/camera/picamera.py`,
`__init__` lines 30-59).  A picamera2 handle has no `isOpened` notion, so
the slot holds just an identifier. -/
structure PiCamera where
  picam : Option Nat
  width : Nat
  height : Nat
  targetFps : Nat
  focusDistance : ℚ
  retryInterval : Nat
  sequence : Nat
  frameTimes : List ℚ
  measuredFps : ℚ
  acquired : List Nat
  released : List Nat
  nextId : Nat
deriving DecidableEq

/-- `PiCamera.__init__` (picamera.py lines 30-59). -/
def initPi (width height fps : Nat) (focusDistance : ℚ) (retryInterval : Nat) : PiCamera :=
  { picam := none, width := width, height := height, targetFps := fps,
    focusDistance := focusDistance, retryInterval := retryInterval,
    sequence := 0, frameTimes := [], measuredFps := 0,
    acquired := [], released := [], nextId := 0 }

/-- `PiCamera._cleanup` (picamera.py lines 172-180). -/
def piCleanup (c : PiCamera) : PiCamera :=
  match c.picam with
  | none => c
  | some h => { c with picam := none, released := c.released ++ [h] }

/-- `PiCamera.close` (picamera.py lines 167-170). -/
def piClose (c : PiCamera) : PiCamera :=
  piCleanup c

/-- `PiCamera.is_open` (picamera.py lines 182-188): `self._picam is not None`. -/
def piIsOpen (c : PiCamera) : Bool :=
  c.picam.isSome

/-- Environment of one `PiCamera.open()` call.  `importOk = false` models
`from picamera2 import Picamera2` raising `ImportError`; `ctorRaises` an
exception in `Picamera2()`; `laterRaises` an exception in
`configure`/`start` (the unsupported-focus case is tolerated by the source
and does not affect the outcome, so it is not modelled). -/
structure PiOpenEnv where
  importOk : Bool
  ctorRaises : Bool
  laterRaises : Bool
deriving DecidableEq

/-- `PiCamera.open` (picamera.py lines 61-126).  Paths, in source order:
1. `ImportError` → `False` with **no** cleanup (lines 120-122), leaving any
   previously held handle in place;
2. exception in `Picamera2()` → generic `except` → `_cleanup` of the state
   as it was (line 125), `False`;
3. `self._picam = Picamera2()` overwrites the slot without releasing the
   previous occupant;
4. exception in `configure`/`start` → `_cleanup`, `False`;
5. success → `_sequence = 0`, `_frame_times = []`, `True` (lines 108-118).
`_measured_fps` is not touched on any path. -/
def piOpen (env : PiOpenEnv) (c : PiCamera) : Bool × PiCamera :=
  if env.importOk = false then (false, c)
  else if env.ctorRaises then (false, piCleanup c)
  else
    let c1 : PiCamera :=
      { c with picam := some c.nextId,
               acquired := c.acquired ++ [c.nextId],
               nextId := c.nextId + 1 }
    if env.laterRaises then (false, piCleanup c1)
    else (true, { c1 with sequence := 0, frameTimes := [] })

/-- `PiCamera.read` (picamera.py lines 128-165): same window/sequence logic
as the USB backend; the RGB→BGR reversal (`rgb[:, :, ::-1].copy()`)
preserves the buffer's shape. -/
def piRead (env : ReadEnv) (c : PiCamera) : Option Frame × PiCamera :=
  if piIsOpen c = false then (none, c)
  else
    match env.capture with
    | none => (none, c)
    | some buf =>
        let times := trimTimes (c.frameTimes ++ [env.now])
        let c2 : PiCamera :=
          { c with frameTimes := times,
                   measuredFps := updateFps c.measuredFps times,
                   sequence := c.sequence + 1 }
        (some (Frame.create buf c2.sequence env.now), c2)

/-- Result of the factory: one of the two backends, not yet opened. -/
inductive CameraChoice where
  | pi (c : PiCamera)
  | usb (c : USBCamera)
deriving DecidableEq

/-- `create_camera` (apis-edge/pi/camera/`__init__.py` lines 32-109).
`probeOk` is the outcome of the auto-detect probe (constructing and closing
a `Picamera2`); an unrecognized type raises
`ValueError(f"Unknown camera type: {camera_type}")`, modelled as
`Except.error`. -/
def create_camera (cameraType : String) (width height fps deviceId : Nat)
    (focusDistance : ℚ) (retryInterval : Nat) (probeOk : Bool) :
    Except String CameraChoice :=
  if cameraType = "picamera" then
    Except.ok (CameraChoice.pi (initPi width height fps focusDistance retryInterval))
  else if cameraType = "usb" then
    Except.ok (CameraChoice.usb (initUSB deviceId width height fps retryInterval))
  else if cameraType = "auto" then
    if probeOk then
      Except.ok (CameraChoice.pi (initPi width height fps focusDistance retryInterval))
    else
      Except.ok (CameraChoice.usb (initUSB deviceId width height fps retryInterval))
  else
    Except.error ("Unknown camera type: " ++ cameraType)

/-- One call a client can make on a `USBCamera` instance, together with the
environment the native layer supplies for it. -/
inductive CamOp where
  | doOpen (env : USBOpenEnv)
  | doRead (env : ReadEnv)
  | doClose
deriving DecidableEq

/-- Apply one call to a `USBCamera`, discarding the return value. -/
def usbStep (c : USBCamera) : CamOp → USBCamera
  | CamOp.doOpen env => (usbOpen env c).2
  | CamOp.doRead env => (usbRead env c).2
  | CamOp.doClose => usbClose c

/-- Run a sequence of calls on a `USBCamera`. -/
def usbExec (c : USBCamera) : List CamOp → USBCamera
  | [] => c
  | op :: ops => usbExec (usbStep c op) ops

/-- Spec-side counter, following the claim's words: the number of successful
`read()` calls since the most recent `open()` call (`acc` is the count
carried into the trace). -/
def readsSinceOpen (c : USBCamera) (acc : Nat) : List CamOp → Nat
  | [] => acc
  | CamOp.doOpen env :: ops => readsSinceOpen (usbStep c (CamOp.doOpen env)) 0 ops
  | CamOp.doRead env :: ops =>
      readsSinceOpen (usbStep c (CamOp.doRead env))
        (if (usbRead env c).1.isSome then acc + 1 else acc) ops
  | CamOp.doClose :: ops => readsSinceOpen (usbStep c CamOp.doClose) acc ops

/-- Identifiers of handles that were acquired at some point and never
explicitly released. -/
def unreleasedIds (c : USBCamera) : List Nat :=
  c.acquired.filter (fun i => decide (i ∉ c.released))

/-- A call sequence is disciplined when every `open()` is issued while the
handle slot is empty (as it is after `close()`). -/
def disciplinedB (c : USBCamera) : List CamOp → Bool
  | [] => true
  | CamOp.doOpen env :: ops => c.cap.isNone && disciplinedB (usbStep c (CamOp.doOpen env)) ops
  | CamOp.doRead env :: ops => disciplinedB (usbStep c (CamOp.doRead env)) ops
  | CamOp.doClose :: ops => disciplinedB (usbStep c CamOp.doClose) ops

/-- Handle-accounting invariant: identifiers are allocated below `nextId`,
and the unreleased handles are exactly the one in the slot (if any). -/
abbrev usbWF (c : USBCamera) : Prop :=
  (∀ i ∈ c.acquired, i < c.nextId) ∧ (∀ i ∈ c.released, i < c.nextId) ∧
    unreleasedIds c = (match c.cap with | some h => [h.id] | none => [])

/-- The last `n` elements of a list. -/
def lastN (n : Nat) (l : List ℚ) : List ℚ :=
  l.drop (l.length - n)

/-- A run of successful `read()` calls at the given instants (the capture
succeeds each time; the buffer contents are irrelevant to timing claims). -/
def readMany (c : USBCamera) : List ℚ → USBCamera
  | [] => c
  | t :: ts => readMany (usbRead { capture := some ⟨480, 640⟩, now := t } c).2 ts

/-- Observable events of the supervisor loop in `apis-edge/pi/main.py`. -/
inductive Ev where
  | evOpen (ok : Bool)
  | evRead (ok : Bool)
  | evClose
  | evSleep
deriving DecidableEq

/-- Environment of a supervisor run: `opens n` / `reads n` are the results
of the n-th `camera.open()` / `camera.read()` call, and `cancel t` says
whether the external cancellation signal has arrived by global step `t`
(i.e. what the `running` flag would show if it were consulted then). -/
structure SupEnv where
  opens : Nat → Bool
  reads : Nat → Bool
  cancel : Nat → Bool

/-- Supervisor bookkeeping: a global step counter (advanced at every
camera call and sleep), per-oracle call counters, and the event trace. -/
structure SupState where
  step : Nat
  openCalls : Nat
  readCalls : Nat
  trace : List Ev
deriving DecidableEq

/-- The two loop states of the running supervisor: the `while running`
read loop and the `while running and not camera.open()` reconnect loop. -/
inductive Phase where
  | running
  | reconnecting
deriving DecidableEq

/-- The main capture loop of `main()` (main.py lines 155-211), entered after
the signal handlers are installed (lines 147-148).  `running` is consulted at
the top of the read loop and at the top of the reconnect loop; a failed read
closes the device and enters reconnection; loop exit runs the `finally`
block (`camera.close()`) and returns exit status 0.  Reporting counters do
not influence control flow and are omitted.  `none` means the fuel ran out
with the loop still running. -/
def mainLoop (env : SupEnv) : Phase → SupState → Nat → List Ev × Option Nat
  | _, s, 0 => (s.trace, none)
  | Phase.running, s, Nat.succ fuel =>
      if env.cancel s.step then (s.trace ++ [Ev.evClose], some 0)
      else
        let ok := env.reads s.readCalls
        let s1 : SupState := { s with readCalls := s.readCalls + 1, step := s.step + 1,
                                      trace := s.trace ++ [Ev.evRead ok] }
        if ok then mainLoop env Phase.running s1 fuel
        else mainLoop env Phase.reconnecting
               { s1 with trace := s1.trace ++ [Ev.evClose], step := s1.step + 1 } fuel
  | Phase.reconnecting, s, Nat.succ fuel =>
      if env.cancel s.step then (s.trace ++ [Ev.evClose], some 0)
      else
        let ok := env.opens s.openCalls
        let s1 : SupState := { s with openCalls := s.openCalls + 1, step := s.step + 1,
                                      trace := s.trace ++ [Ev.evOpen ok] }
        if ok then mainLoop env Phase.running s1 fuel
        else mainLoop env Phase.reconnecting
               { s1 with trace := s1.trace ++ [Ev.evSleep], step := s1.step + 1 } fuel

/-- The initial camera-open retry loop of `main()` (main.py lines 122-129):
`while not camera.open(): log; sleep`.  It runs **before** the signal
handlers are installed and consults no cancellation flag.  Returns the
state and whether an `open()` succeeded within the fuel. -/
def initialConnect (env : SupEnv) (s : SupState) : Nat → SupState × Bool
  | 0 => (s, false)
  | Nat.succ fuel =>
      let ok := env.opens s.openCalls
      let s1 : SupState := { s with openCalls := s.openCalls + 1, step := s.step + 1,
                                    trace := s.trace ++ [Ev.evOpen ok] }
      if ok then (s1, true)
      else initialConnect env { s1 with trace := s1.trace ++ [Ev.evSleep], step := s1.step + 1 } fuel

/-- `main()` control flow (main.py lines 96-211): initial connect loop, then
the supervised read loop. -/
def supMain (env : SupEnv) (fuel : Nat) : List Ev × Option Nat :=
  let r := initialConnect env { step := 0, openCalls := 0, readCalls := 0, trace := [] } fuel
  if r.2 then mainLoop env Phase.running r.1 fuel else (r.1.trace, none)

/-! Basic facts about the modelled calls. -/

theorem usbCleanup_cap (c : USBCamera) : (usbCleanup c).cap = none := by
  cases hc : c.cap <;> simp [usbCleanup, hc]

theorem usbCleanup_sequence (c : USBCamera) : (usbCleanup c).sequence = c.sequence := by
  cases hc : c.cap <;> simp [usbCleanup, hc]

theorem usbCleanup_measuredFps (c : USBCamera) : (usbCleanup c).measuredFps = c.measuredFps := by
  cases hc : c.cap <;> simp [usbCleanup, hc]

theorem usbCleanup_frameTimes (c : USBCamera) : (usbCleanup c).frameTimes = c.frameTimes := by
  cases hc : c.cap <;> simp [usbCleanup, hc]

/-- `is_open()` after `open()` reports exactly whether `open()` succeeded:
every failure path either releases the slot or leaves an unopened handle. -/
theorem usbOpen_isOpen (env : USBOpenEnv) (c : USBCamera) :
    usbIsOpen (usbOpen env c).2 = (usbOpen env c).1 := by
  unfold usbOpen
  by_cases h1 : env.ctorRaises <;> by_cases h2 : env.isOpened <;>
    by_cases h3 : env.raisesMid <;> by_cases h4 : env.testRead <;>
      simp [h1, h2, h3, h4, usbIsOpen, usbCleanup_cap]

/-- A successful `open()` resets the sequence counter and the window. -/
theorem usbOpen_true_state (env : USBOpenEnv) (c : USBCamera)
    (h : (usbOpen env c).1 = true) :
    (usbOpen env c).2.sequence = 0 ∧ (usbOpen env c).2.frameTimes = [] := by
  unfold usbOpen at h ⊢
  by_cases h1 : env.ctorRaises <;> by_cases h2 : env.isOpened <;>
    by_cases h3 : env.raisesMid <;> by_cases h4 : env.testRead <;>
      simp [h1, h2, h3, h4] at h ⊢

/-- A failed `open()` leaves the sequence counter as it was. -/
theorem usbOpen_false_sequence (env : USBOpenEnv) (c : USBCamera)
    (h : (usbOpen env c).1 = false) :
    (usbOpen env c).2.sequence = c.sequence := by
  unfold usbOpen at h ⊢
  by_cases h1 : env.ctorRaises <;> by_cases h2 : env.isOpened <;>
    by_cases h3 : env.raisesMid <;> by_cases h4 : env.testRead <;>
      simp [h1, h2, h3, h4, usbCleanup_sequence] at h ⊢

/-- `open()` never touches the cached measured rate. -/
theorem usbOpen_measuredFps (env : USBOpenEnv) (c : USBCamera) :
    (usbOpen env c).2.measuredFps = c.measuredFps := by
  unfold usbOpen
  by_cases h1 : env.ctorRaises <;> by_cases h2 : env.isOpened <;>
    by_cases h3 : env.raisesMid <;> by_cases h4 : env.testRead <;>
      simp [h1, h2, h3, h4, usbCleanup_measuredFps]

/-- A failed `read()` returns the state unchanged (usb backend). -/
theorem usbRead_none (env : ReadEnv) (c : USBCamera)
    (h : (usbRead env c).1 = none) : (usbRead env c).2 = c := by
  unfold usbRead at h ⊢
  by_cases ho : usbIsOpen c = false
  · simp [ho]
  · cases hc : env.capture <;> simp [ho, hc] at h ⊢

/-- `read()` never changes the handle slot or the ghost accounting. -/
theorem usbRead_handles (env : ReadEnv) (c : USBCamera) :
    (usbRead env c).2.cap = c.cap ∧ (usbRead env c).2.acquired = c.acquired ∧
      (usbRead env c).2.released = c.released ∧ (usbRead env c).2.nextId = c.nextId := by
  unfold usbRead
  by_cases ho : usbIsOpen c = false
  · simp [ho]
  · cases hc : env.capture <;> simp [ho, hc]

/-- A successful `read()` happens only on an open device, increments the
sequence counter, and returns the frame built from the captured buffer. -/
theorem usbRead_some (env : ReadEnv) (c : USBCamera) (f : Frame)
    (h : (usbRead env c).1 = some f) :
    usbIsOpen c = true ∧ (usbRead env c).2.sequence = c.sequence + 1 ∧
      env.capture = some f.data ∧
      f = Frame.create f.data (c.sequence + 1) env.now := by
  unfold usbRead at h ⊢
  by_cases ho : usbIsOpen c = false
  · simp [ho] at h
  · cases hc : env.capture with
    | none => simp [ho, hc] at h
    | some buf =>
        simp [ho, hc] at h ⊢
        subst h
        exact ⟨rfl, rfl⟩

theorem piCleanup_picam (c : PiCamera) : (piCleanup c).picam = none := by
  cases hc : c.picam <;> simp [piCleanup, hc]

theorem piCleanup_sequence (c : PiCamera) : (piCleanup c).sequence = c.sequence := by
  cases hc : c.picam <;> simp [piCleanup, hc]

/-- A successful `open()` resets the sequence counter and the window
(integrated backend). -/
theorem piOpen_true_state (env : PiOpenEnv) (c : PiCamera)
    (h : (piOpen env c).1 = true) :
    (piOpen env c).2.sequence = 0 ∧ (piOpen env c).2.frameTimes = [] := by
  unfold piOpen at h ⊢
  by_cases h1 : env.importOk <;> by_cases h2 : env.ctorRaises <;>
    by_cases h3 : env.laterRaises <;> simp [h1, h2, h3] at h ⊢

/-- A failed `open()` leaves the sequence counter as it was (integrated
backend). -/
theorem piOpen_false_sequence (env : PiOpenEnv) (c : PiCamera)
    (h : (piOpen env c).1 = false) :
    (piOpen env c).2.sequence = c.sequence := by
  unfold piOpen at h ⊢
  by_cases h1 : env.importOk <;> by_cases h2 : env.ctorRaises <;>
    by_cases h3 : env.laterRaises <;>
      simp [h1, h2, h3, piCleanup_sequence] at h ⊢

/-- A failed `read()` returns the state unchanged (integrated backend). -/
theorem piRead_none (env : ReadEnv) (c : PiCamera)
    (h : (piRead env c).1 = none) : (piRead env c).2 = c := by
  unfold piRead at h ⊢
  by_cases ho : piIsOpen c = false
  · simp [ho]
  · cases hc : env.capture <;> simp [ho, hc] at h ⊢

/-! Sequence-counter bookkeeping across call traces. -/

/-- Composing call traces. -/
theorem usbExec_append (l₁ l₂ : List CamOp) (c : USBCamera) :
    usbExec c (l₁ ++ l₂) = usbExec (usbExec c l₁) l₂ := by
  induction l₁ generalizing c with
  | nil => rfl
  | cons op rest ih => simp [usbExec, ih]

theorem readsSinceOpen_append (l₁ l₂ : List CamOp) (c : USBCamera) (acc : Nat) :
    readsSinceOpen c acc (l₁ ++ l₂) =
      readsSinceOpen (usbExec c l₁) (readsSinceOpen c acc l₁) l₂ := by
  induction l₁ generalizing c acc with
  | nil => rfl
  | cons op rest ih =>
      cases op <;> simp [readsSinceOpen, usbExec, ih]

/-- Whenever the device is open, its sequence counter equals the number of
successful reads since the most recent `open()` call. -/
theorem usbSequence_counts_reads (ops : List CamOp) (c : USBCamera) (acc : Nat)
    (h : usbIsOpen c = true → c.sequence = acc) :
    usbIsOpen (usbExec c ops) = true →
      (usbExec c ops).sequence = readsSinceOpen c acc ops := by
  induction ops generalizing c acc with
  | nil => simpa [usbExec, readsSinceOpen] using h
  | cons op rest ih =>
      cases op with
      | doOpen env =>
          refine ih _ _ ?_
          intro hopen
          rw [usbStep, usbOpen_isOpen] at hopen
          exact (usbOpen_true_state env c hopen).1
      | doRead env =>
          refine ih _ _ ?_
          intro hopen
          cases hr : (usbRead env c).1 with
          | none =>
              rw [usbStep, usbRead_none env c hr] at hopen ⊢
              simp [hr, h hopen]
          | some f =>
              obtain ⟨hco, hseq, -, -⟩ := usbRead_some env c f hr
              rw [usbStep, hseq, h hco]
              simp [hr]
      | doClose =>
          refine ih _ _ ?_
          intro hopen
          rw [usbStep, usbClose] at hopen
          simp [usbIsOpen, usbCleanup_cap] at hopen

/-! Claim C1. -/

/-- Environment of a `USBCamera.open()` call in which the device is absent:
`cv2.VideoCapture` constructs a handle but `isOpened()` is false. -/
def c1NotFoundEnv : USBOpenEnv :=
  { ctorRaises := false, isOpened := false, raisesMid := false,
    grantedWidth := 640, grantedHeight := 480, testRead := true }

/-- C1, counterexample: in the device-not-found path `open()` returns
`False` at line 87 of usb.py without calling `_cleanup`, so the
`VideoCapture` handle acquired by this very call (id 0) is still held in
the slot and was never released — contradicting "any partially acquired
handle has been fully released before open() returns". -/
theorem open_false_unreleased_handle_cex :
    (usbOpen c1NotFoundEnv (initUSB 0 640 480 10 30)).1 = false ∧
      0 ∈ (usbOpen c1NotFoundEnv (initUSB 0 640 480 10 30)).2.acquired ∧
      0 ∉ (usbOpen c1NotFoundEnv (initUSB 0 640 480 10 30)).2.released ∧
      (usbOpen c1NotFoundEnv (initUSB 0 640 480 10 30)).2.cap ≠ none := by
  decide

/-- C1 (amended): `open()` never raises (it is a total function here), and
after a `False` return the USB device holds no **live** handle — `is_open()`
reports false.  The handle acquired during the failing call is explicitly
released in the configuration-exception and failed-self-test paths, but in
the device-not-found path it is merely retained unopened, not released.
For the integrated backend a `False` return from any post-import path
leaves the slot empty, while the failed-import path returns `False` with
the state (including any previously held handle) untouched. -/
theorem open_false_no_live_handle :
    (∀ env c, (usbOpen env c).1 = false →
       usbIsOpen (usbOpen env c).2 = false ∧
         (env.ctorRaises = false → env.isOpened = true →
           (usbOpen env c).2.cap = none ∧ c.nextId ∈ (usbOpen env c).2.released)) ∧
    (∀ env c, (piOpen env c).1 = false →
       (env.importOk = true → (piOpen env c).2.picam = none) ∧
         (env.importOk = false → (piOpen env c).2 = c)) := by
  constructor
  · intro env c h
    refine ⟨by rw [usbOpen_isOpen]; exact h, ?_⟩
    intro h1 h2
    unfold usbOpen at h ⊢
    by_cases h3 : env.raisesMid <;> by_cases h4 : env.testRead <;>
      simp [h1, h2, h3, h4, usbCleanup] at h ⊢
  · intro env c h
    unfold piOpen at h ⊢
    by_cases h1 : env.importOk <;> by_cases h2 : env.ctorRaises <;>
      by_cases h3 : env.laterRaises <;>
        simp [h1, h2, h3, piCleanup_picam] at h ⊢

/-- Environment of a `USBCamera.open()` call whose self-test read fails. -/
def c1TestFailEnv : USBOpenEnv :=
  { ctorRaises := false, isOpened := true, raisesMid := false,
    grantedWidth := 640, grantedHeight := 480, testRead := false }

/-- C1 witness: the failed-self-test path of `open()` at a concrete input
leaves no live handle and has released the partially acquired handle. -/
theorem open_false_no_live_handle_witness :
    (usbOpen c1TestFailEnv (initUSB 0 640 480 10 30)).1 = false ∧
      usbIsOpen (usbOpen c1TestFailEnv (initUSB 0 640 480 10 30)).2 = false ∧
      (usbOpen c1TestFailEnv (initUSB 0 640 480 10 30)).2.cap = none := by
  refine ⟨by decide, ?_, ?_⟩
  · exact (open_false_no_live_handle.1 _ _ (by decide)).1
  · exact ((open_false_no_live_handle.1 _ _ (by decide)).2 (by decide) (by decide)).1

/-! Claim C3. -/

/-- A fully successful `USBCamera.open()` environment. -/
def okOpenEnv : USBOpenEnv :=
  { ctorRaises := false, isOpened := true, raisesMid := false,
    grantedWidth := 640, grantedHeight := 480, testRead := true }

/-- Open, read at t=0 and t=1 (measured fps becomes 1), then reopen: the
reopen clears the window but not `_measured_fps`. -/
def c3cam : USBCamera :=
  usbExec (initUSB 0 640 480 10 30)
    [CamOp.doOpen okOpenEnv,
     CamOp.doRead { capture := some ⟨480, 640⟩, now := 0 },
     CamOp.doRead { capture := some ⟨480, 640⟩, now := 1 },
     CamOp.doOpen okOpenEnv]

/-- C3, counterexample: immediately after an `open()` that cleared the
window, the window holds fewer than two timestamps yet the `fps` property
still reports the stale value 1, not 0 — `open()` resets `_sequence` and
`_frame_times` (usb.py lines 106-108) but never `_measured_fps`. -/
theorem reopen_keeps_stale_fps_cex :
    c3cam.frameTimes.length < 2 ∧ usbFps c3cam ≠ 0 := by
  constructor
  · decide
  · simp [c3cam, usbExec, usbStep, usbRead, usbOpen, okOpenEnv, initUSB, usbIsOpen,
      trimTimes, updateFps, fpsWindow, usbFps, usbCleanup]

/-- C3 (amended): `measured_fps` is a cached value: it starts at 0, is
recomputed only by a successful `read()` whose post-read window holds at
least two timestamps spanning positive time (then it equals
`(count - 1) / (newest - oldest)`), and is preserved unchanged by
`open()` (which clears the window), by `close()`, by failed reads, and by
successful reads whose window still holds fewer than two timestamps. -/
theorem measured_fps_characterization :
    (∀ d w ht fp ri, usbFps (initUSB d w ht fp ri) = 0) ∧
    (∀ env c, (usbOpen env c).1 = true →
       (usbOpen env c).2.frameTimes = [] ∧ usbFps (usbOpen env c).2 = usbFps c) ∧
    (∀ env c, (usbRead env c).1 = none → usbFps (usbRead env c).2 = usbFps c) ∧
    (∀ c, usbFps (usbClose c) = usbFps c) ∧
    (∀ env c f, (usbRead env c).1 = some f →
       (usbRead env c).2.frameTimes.length < 2 →
       usbFps (usbRead env c).2 = usbFps c) ∧
    (∀ env c f, (usbRead env c).1 = some f →
       2 ≤ (usbRead env c).2.frameTimes.length →
       0 < (usbRead env c).2.frameTimes.getLastD 0 - (usbRead env c).2.frameTimes.headD 0 →
       usbFps (usbRead env c).2 =
         ((((usbRead env c).2.frameTimes.length - 1 : Nat) : ℚ) /
           ((usbRead env c).2.frameTimes.getLastD 0 - (usbRead env c).2.frameTimes.headD 0))) := by
  refine ⟨fun d w ht fp ri => rfl, ?_, ?_, ?_, ?_, ?_⟩
  · intro env c h
    exact ⟨(usbOpen_true_state env c h).2, usbOpen_measuredFps env c⟩
  · intro env c h
    simp [usbFps, usbRead_none env c h]
  · intro c
    exact usbCleanup_measuredFps c
  · intro env c f h hlen
    unfold usbRead at h hlen ⊢
    by_cases ho : usbIsOpen c = false
    · simp [ho] at h
    · cases hc : env.capture with
      | none => simp [ho, hc] at h
      | some buf =>
          simp [ho, hc] at hlen ⊢
          rw [usbFps, usbFps, updateFps]
          have : ¬ (2 ≤ (trimTimes (c.frameTimes ++ [env.now])).length) := by omega
          simp [this]
  · intro env c f h hlen hpos
    unfold usbRead at h hlen hpos ⊢
    by_cases ho : usbIsOpen c = false
    · simp [ho] at h
    · cases hc : env.capture with
      | none => simp [ho, hc] at h
      | some buf =>
          simp [ho, hc] at hlen hpos ⊢
          rw [usbFps, updateFps]
          simp [hlen, hpos]

/-- An open camera with one timestamp (0) already in its window. -/
def fpsWitnessCam : USBCamera :=
  { cap := some ⟨0, true⟩, deviceId := 0, width := 640, height := 480,
    targetFps := 10, retryInterval := 30, sequence := 1, frameTimes := [0],
    measuredFps := 0, actualWidth := 640, actualHeight := 480,
    acquired := [0], released := [], nextId := 1 }

/-- C3 witness: a successful read at instant 1 on a camera whose window
held the single timestamp 0 gives a two-element window with positive span,
and the measured rate then equals `(count - 1) / (newest - oldest)`. -/
theorem measured_fps_characterization_witness :
    (usbRead { capture := some ⟨480, 640⟩, now := 1 } fpsWitnessCam).1
        = some (Frame.create ⟨480, 640⟩ 2 1) ∧
      2 ≤ (usbRead { capture := some ⟨480, 640⟩, now := 1 } fpsWitnessCam).2.frameTimes.length ∧
      usbFps (usbRead { capture := some ⟨480, 640⟩, now := 1 } fpsWitnessCam).2 =
        ((((usbRead { capture := some ⟨480, 640⟩, now := 1 } fpsWitnessCam).2.frameTimes.length
              - 1 : Nat) : ℚ) /
          ((usbRead { capture := some ⟨480, 640⟩, now := 1 } fpsWitnessCam).2.frameTimes.getLastD 0
            - (usbRead { capture := some ⟨480, 640⟩, now := 1 } fpsWitnessCam).2.frameTimes.headD 0)) :=
  ⟨by decide, by decide,
   measured_fps_characterization.2.2.2.2.2 { capture := some ⟨480, 640⟩, now := 1 }
     fpsWitnessCam (Frame.create ⟨480, 640⟩ 2 1) (by decide) (by decide)
     (by simp [usbRead, usbIsOpen, fpsWitnessCam, trimTimes, fpsWindow])⟩

/-! Claim C5. -/

/-- Open, one successful read (sequence becomes 1), close. -/
def c5pre : USBCamera :=
  usbExec (initUSB 0 640 480 10 30)
    [CamOp.doOpen okOpenEnv,
     CamOp.doRead { capture := some ⟨480, 640⟩, now := 0 },
     CamOp.doClose]

/-- C5, counterexample: an `open()` call that returns `False` (device not
found) leaves the sequence counter at its pre-close value 1 instead of
resetting it to 0 — the reset (usb.py line 107) sits on the success path
only. -/
theorem failed_open_keeps_sequence_cex :
    (usbOpen c1NotFoundEnv c5pre).1 = false ∧
      (usbOpen c1NotFoundEnv c5pre).2.sequence = 1 := by
  decide

/-- C5 (amended): the sequence counter is reset to 0 by every `open()` call
that returns true (regardless of its previous value), and is left unchanged
by every `open()` call that returns false — for both backends. -/
theorem open_sequence_reset_cases :
    (∀ env c, (usbOpen env c).1 = true → (usbOpen env c).2.sequence = 0) ∧
    (∀ env c, (usbOpen env c).1 = false → (usbOpen env c).2.sequence = c.sequence) ∧
    (∀ env c, (piOpen env c).1 = true → (piOpen env c).2.sequence = 0) ∧
    (∀ env c, (piOpen env c).1 = false → (piOpen env c).2.sequence = c.sequence) :=
  ⟨fun env c h => (usbOpen_true_state env c h).1, usbOpen_false_sequence,
   fun env c h => (piOpen_true_state env c h).1, piOpen_false_sequence⟩

/-- C5 witness: a successful reopen after three reads resets the counter
from 3 to 0. -/
theorem open_sequence_reset_cases_witness :
    (usbOpen okOpenEnv
        (usbExec (initUSB 0 640 480 10 30)
          [CamOp.doOpen okOpenEnv,
           CamOp.doRead { capture := some ⟨480, 640⟩, now := 0 },
           CamOp.doRead { capture := some ⟨480, 640⟩, now := 1 },
           CamOp.doRead { capture := some ⟨480, 640⟩, now := 2 }])).1 = true ∧
      (usbOpen okOpenEnv
        (usbExec (initUSB 0 640 480 10 30)
          [CamOp.doOpen okOpenEnv,
           CamOp.doRead { capture := some ⟨480, 640⟩, now := 0 },
           CamOp.doRead { capture := some ⟨480, 640⟩, now := 1 },
           CamOp.doRead { capture := some ⟨480, 640⟩, now := 2 }])).2.sequence = 0 :=
  ⟨by decide, open_sequence_reset_cases.1 _ _ (by decide)⟩

/-! Claim C9. -/

/-- C9 (confirmed): a `read()` that returns none — device closed, capture
failure, or empty/`None` buffer — leaves the whole device state unchanged:
sequence counter, timestamp window and measured rate are untouched, for
both backends. -/
theorem failed_read_state_unchanged :
    (∀ env c, (usbRead env c).1 = none → (usbRead env c).2 = c) ∧
    (∀ env c, (piRead env c).1 = none → (piRead env c).2 = c) :=
  ⟨usbRead_none, piRead_none⟩

/-- C9 witness: a capture failure on an open device at a concrete state
leaves the state equal to what it was. -/
theorem failed_read_state_unchanged_witness :
    (usbRead { capture := none, now := 7 } (usbOpen okOpenEnv (initUSB 0 640 480 10 30)).2).1
        = none ∧
      (usbRead { capture := none, now := 7 } (usbOpen okOpenEnv (initUSB 0 640 480 10 30)).2).2
        = (usbOpen okOpenEnv (initUSB 0 640 480 10 30)).2 :=
  ⟨by decide, failed_read_state_unchanged.1 _ _ (by decide)⟩

/-! Claim C10. -/

/-- C10 (confirmed): the self-test read inside `USBCamera.open()` is not
counted as a capture: the counters are reset after it, so any successful
`open()` leaves sequence 0 and an empty window, `open()` never changes the
measured rate (the self-test frame never reaches the window), and the
first subsequent successful `read()` returns a frame with sequence 1. -/
theorem self_test_not_counted :
    (∀ env c, (usbOpen env c).1 = true →
       (usbOpen env c).2.sequence = 0 ∧ (usbOpen env c).2.frameTimes = []) ∧
    (∀ env c, (usbOpen env c).2.measuredFps = c.measuredFps) ∧
    (∀ env c env2 f, (usbOpen env c).1 = true →
       (usbRead env2 (usbOpen env c).2).1 = some f → f.sequence = 1) := by
  refine ⟨usbOpen_true_state, usbOpen_measuredFps, ?_⟩
  intro env c env2 f hopen hread
  obtain ⟨-, -, -, hf⟩ := usbRead_some env2 _ f hread
  rw [(usbOpen_true_state env c hopen).1] at hf
  rw [hf]
  rfl

/-- C10 witness: after a concrete successful `open()`, the first read
returns sequence 1. -/
theorem self_test_not_counted_witness :
    (usbOpen okOpenEnv (initUSB 0 640 480 10 30)).1 = true ∧
      (usbRead { capture := some ⟨480, 640⟩, now := 0 }
          (usbOpen okOpenEnv (initUSB 0 640 480 10 30)).2).1
        = some (Frame.create ⟨480, 640⟩ 1 0) ∧
      (Frame.create ⟨480, 640⟩ 1 0).sequence = 1 :=
  ⟨by decide, by decide,
   self_test_not_counted.2.2 okOpenEnv (initUSB 0 640 480 10 30)
     { capture := some ⟨480, 640⟩, now := 0 } (Frame.create ⟨480, 640⟩ 1 0)
     (by decide) (by decide)⟩

/-! Claim C6. -/

/-- C6 (confirmed): every successful `read()` on a `USBCamera` reached by
any call trace from construction returns a `Frame` whose width is the
buffer's second axis and height its first axis, and whose sequence number
is the count of successful reads since the most recent `open()` call
(the read itself included), so the first read after an `open()` carries
sequence 1. -/
theorem read_frame_dims_and_sequence (d w ht fp ri : Nat) (ops : List CamOp)
    (env : ReadEnv) (buf : Buffer) (f : Frame)
    (hcap : env.capture = some buf)
    (hread : (usbRead env (usbExec (initUSB d w ht fp ri) ops)).1 = some f) :
    f.width = buf.dim1 ∧ f.height = buf.dim0 ∧
      f.sequence =
        readsSinceOpen (initUSB d w ht fp ri) 0 (ops ++ [CamOp.doRead env]) := by
  obtain ⟨hco, hseq, hcap2, hf⟩ := usbRead_some env _ f hread
  have hbuf : f.data = buf := by
    rw [hcap] at hcap2
    exact (Option.some_inj.mp hcap2).symm
  have hinv := usbSequence_counts_reads ops (initUSB d w ht fp ri) 0
    (fun _ => rfl) hco
  refine ⟨by rw [hf, hbuf]; rfl, by rw [hf, hbuf]; rfl, ?_⟩
  rw [readsSinceOpen_append]
  simp only [readsSinceOpen, hread, Option.isSome_some, if_true]
  rw [← hinv, hf]
  rfl

/-- C6 witness: a concrete trace — open, one failed read, one successful
read — yields a frame with sequence 1 (only successful reads count) and the
buffer's own dimensions. -/
theorem read_frame_dims_and_sequence_witness :
    (usbRead { capture := some ⟨480, 640⟩, now := 3 }
        (usbExec (initUSB 0 640 480 10 30)
          [CamOp.doOpen okOpenEnv, CamOp.doRead { capture := none, now := 2 }])).1
      = some (Frame.create ⟨480, 640⟩ 1 3) ∧
      (Frame.create ⟨480, 640⟩ 1 3).width = 640 ∧
      (Frame.create ⟨480, 640⟩ 1 3).height = 480 ∧
      (Frame.create ⟨480, 640⟩ 1 3).sequence =
        readsSinceOpen (initUSB 0 640 480 10 30) 0
          [CamOp.doOpen okOpenEnv, CamOp.doRead { capture := none, now := 2 },
           CamOp.doRead { capture := some ⟨480, 640⟩, now := 3 }] := by
  refine ⟨by decide, ?_⟩
  have h := read_frame_dims_and_sequence 0 640 480 10 30
    [CamOp.doOpen okOpenEnv, CamOp.doRead { capture := none, now := 2 }]
    { capture := some ⟨480, 640⟩, now := 3 } ⟨480, 640⟩
    (Frame.create ⟨480, 640⟩ 1 3) (by decide) (by decide)
  exact h

/-! Claim C8. -/

/-- C8 (confirmed): for every backend identifier other than "picamera",
"usb" and "auto", the factory raises
`ValueError(f"Unknown camera type: {camera_type}")` immediately — the
error value is returned to the caller and no camera object is constructed
(the result is not an `Except.ok`). -/
theorem create_camera_unknown_type_error (t : String) (w ht fp d : Nat)
    (fd : ℚ) (ri : Nat) (probe : Bool)
    (h1 : t ≠ "picamera") (h2 : t ≠ "usb") (h3 : t ≠ "auto") :
    create_camera t w ht fp d fd ri probe =
      Except.error ("Unknown camera type: " ++ t) := by
  simp [create_camera, h1, h2, h3]

/-- C8 witness: the factory rejects the identifier "webcam". -/
theorem create_camera_unknown_type_error_witness :
    "webcam" ≠ "picamera" ∧ "webcam" ≠ "usb" ∧ "webcam" ≠ "auto" ∧
      create_camera "webcam" 640 480 10 0 (3 / 2) 30 true =
        Except.error ("Unknown camera type: " ++ "webcam") :=
  ⟨by decide, by decide, by decide,
   create_camera_unknown_type_error "webcam" 640 480 10 0 (3 / 2) 30 true
     (by decide) (by decide) (by decide)⟩

/-! Claim C2: handle accounting. -/

theorem usbCleanup_of_none (c : USBCamera) (h : c.cap = none) : usbCleanup c = c := by
  simp [usbCleanup, h]

/-- Releasing `n` filters it out of the unreleased identifiers. -/
theorem filter_unreleased_release (acq rel : List Nat) (n : Nat) :
    acq.filter (fun i => decide (i ∉ rel ++ [n])) =
      (acq.filter (fun i => decide (i ∉ rel))).filter (fun i => decide (i ≠ n)) := by
  rw [List.filter_filter]
  apply List.filter_congr
  intro a _
  by_cases h1 : a ∈ rel <;> by_cases h2 : a = n <;> simp [h1, h2]

theorem unreleased_after_acquire (acq rel : List Nat) (n : Nat) (hrel : n ∉ rel)
    (hbase : acq.filter (fun i => decide (i ∉ rel)) = []) :
    (acq ++ [n]).filter (fun i => decide (i ∉ rel)) = [n] := by
  rw [List.filter_append, hbase]
  simp [hrel]

theorem unreleased_after_acquire_release (acq rel : List Nat) (n : Nat) (hrel : n ∉ rel)
    (hbase : acq.filter (fun i => decide (i ∉ rel)) = []) :
    (acq ++ [n]).filter (fun i => decide (i ∉ rel ++ [n])) = [] := by
  rw [filter_unreleased_release, unreleased_after_acquire acq rel n hrel hbase]
  simp

/-- `read()` preserves the handle-accounting invariant. -/
theorem usbWF_read (env : ReadEnv) (c : USBCamera) (h : usbWF c) :
    usbWF (usbRead env c).2 := by
  obtain ⟨h1, h2, h3⟩ := h
  obtain ⟨hc, ha, hr, hn⟩ := usbRead_handles env c
  refine ⟨?_, ?_, ?_⟩
  · rw [ha, hn]; exact h1
  · rw [hr, hn]; exact h2
  · rw [hc]
    have : unreleasedIds (usbRead env c).2 = unreleasedIds c := by
      simp [unreleasedIds, ha, hr]
    rw [this]
    exact h3

/-- `close()` (and `_cleanup`) preserves the handle-accounting invariant. -/
theorem usbWF_close (c : USBCamera) (h : usbWF c) : usbWF (usbCleanup c) := by
  obtain ⟨h1, h2, h3⟩ := h
  cases hc : c.cap with
  | none => rw [usbCleanup_of_none c hc]; exact ⟨h1, h2, by rw [h3, hc]⟩
  | some hd =>
      have hfilter : c.acquired.filter (fun i => decide (i ∉ c.released)) = [hd.id] := by
        have := h3
        rw [hc] at this
        exact this
      have hcl : usbCleanup c = { c with cap := none, released := c.released ++ [hd.id] } := by
        simp [usbCleanup, hc]
      rw [hcl]
      refine ⟨h1, ?_, ?_⟩
      · intro i hi
        rcases List.mem_append.mp hi with hi1 | hi1
        · exact h2 i hi1
        · have hm : hd.id ∈ c.acquired :=
            List.mem_of_mem_filter (by rw [hfilter]; exact List.mem_singleton_self _)
          rw [List.mem_singleton.mp hi1]
          exact h1 hd.id hm
      · simp only [unreleasedIds]
        rw [filter_unreleased_release, hfilter]
        simp

/-- `open()` issued with the slot empty preserves the invariant. -/
theorem usbWF_open (env : USBOpenEnv) (c : USBCamera) (h : usbWF c)
    (hcap : c.cap = none) : usbWF (usbOpen env c).2 := by
  obtain ⟨h1, h2, h3⟩ := h
  have hunrel : c.acquired.filter (fun i => decide (i ∉ c.released)) = [] := by
    have := h3
    rw [hcap] at this
    exact this
  have hfresh : c.nextId ∉ c.released := by
    intro hmem
    exact absurd (h2 c.nextId hmem) (lt_irrefl c.nextId)
  have hb1 : ∀ i ∈ c.acquired ++ [c.nextId], i < c.nextId + 1 := by
    intro i hi
    rcases List.mem_append.mp hi with hi1 | hi1
    · exact Nat.lt_succ_of_lt (h1 i hi1)
    · rw [List.mem_singleton.mp hi1]; exact Nat.lt_succ_self _
  have hb2 : ∀ i ∈ c.released, i < c.nextId + 1 :=
    fun i hi => Nat.lt_succ_of_lt (h2 i hi)
  have hb2' : ∀ i ∈ c.released ++ [c.nextId], i < c.nextId + 1 := by
    intro i hi
    rcases List.mem_append.mp hi with hi1 | hi1
    · exact Nat.lt_succ_of_lt (h2 i hi1)
    · rw [List.mem_singleton.mp hi1]; exact Nat.lt_succ_self _
  by_cases e1 : env.ctorRaises
  · rw [usbOpen]
    simp only [e1, if_true]
    rw [usbCleanup_of_none c hcap]
    exact ⟨h1, h2, by rw [h3, hcap]⟩
  · by_cases e2 : env.isOpened
    · by_cases e3 : env.raisesMid
      · rw [usbOpen]
        simp only [e1, e2, e3, if_false, if_true, usbCleanup]
        refine ⟨hb1, hb2', ?_⟩
        simp only [unreleasedIds]
        exact unreleased_after_acquire_release _ _ _ hfresh hunrel
      · by_cases e4 : env.testRead
        · rw [usbOpen]
          simp only [e1, e2, e3, e4, if_false, if_true]
          refine ⟨hb1, hb2, ?_⟩
          simp only [unreleasedIds]
          exact unreleased_after_acquire _ _ _ hfresh hunrel
        · rw [usbOpen]
          simp only [e1, e2, e3, e4, if_false, if_true, usbCleanup]
          refine ⟨hb1, hb2', ?_⟩
          simp only [unreleasedIds]
          exact unreleased_after_acquire_release _ _ _ hfresh hunrel
    · rw [usbOpen]
      simp only [e1, e2, if_false, if_true]
      refine ⟨hb1, hb2, ?_⟩
      simp only [unreleasedIds]
      exact unreleased_after_acquire _ _ _ hfresh hunrel

/-- The invariant holds along every disciplined trace. -/
theorem usbWF_exec (ops : List CamOp) (c : USBCamera) (h : usbWF c)
    (hd : disciplinedB c ops = true) : usbWF (usbExec c ops) := by
  induction ops generalizing c with
  | nil => exact h
  | cons op rest ih =>
      cases op with
      | doOpen env =>
          rw [disciplinedB, Bool.and_eq_true] at hd
          exact ih _ (usbWF_open env c h (Option.isNone_iff_eq_none.mp hd.1)) hd.2
      | doRead env =>
          rw [disciplinedB] at hd
          exact ih _ (usbWF_read env c h) hd
      | doClose =>
          rw [disciplinedB] at hd
          exact ih _ (usbWF_close c h) hd

/-- Two consecutive successful `open()` calls with no `close()` between. -/
def c2cam : USBCamera :=
  usbExec (initUSB 0 640 480 10 30) [CamOp.doOpen okOpenEnv, CamOp.doOpen okOpenEnv]

/-! Claim C7: the rolling window. -/

theorem lastN_length_le (n : Nat) (l : List ℚ) : (lastN n l).length ≤ n := by
  simp [lastN]
  omega

theorem trimTimes_eq_lastN (l : List ℚ) : trimTimes l = lastN fpsWindow l := by
  rw [trimTimes, lastN]
  by_cases h : l.length > fpsWindow
  · simp [h]
  · have h0 : l.length - fpsWindow = 0 := by omega
    simp [h, h0]

/-- Evicting past capacity is absorbed by later evictions: only the last
`n` elements of the prefix matter. -/
theorem lastN_append_lastN (n : Nat) (x ts : List ℚ) :
    lastN n (lastN n x ++ ts) = lastN n (x ++ ts) := by
  by_cases h : x.length ≤ n
  · have h0 : x.length - n = 0 := by omega
    simp [lastN, h0]
  · push_neg at h
    unfold lastN
    simp only [List.length_append, List.length_drop]
    have e1 : x.length - (x.length - n) = n := by omega
    rw [e1, List.drop_append_eq_append_drop, List.drop_append_eq_append_drop]
    simp only [List.length_drop, e1]
    congr 1
    · rw [List.drop_drop]
      congr 1
      omega
    · congr 1
      omega

/-- State of a successful `read()`: the new window and cached rate. -/
theorem usbRead_success_state (env : ReadEnv) (c : USBCamera) (buf : Buffer)
    (ho : usbIsOpen c = true) (hc : env.capture = some buf) :
    (usbRead env c).2.frameTimes = trimTimes (c.frameTimes ++ [env.now]) ∧
      (usbRead env c).2.measuredFps
        = updateFps c.measuredFps (trimTimes (c.frameTimes ++ [env.now])) := by
  unfold usbRead
  simp [ho, hc]

theorem readMany_cap (ts : List ℚ) (c : USBCamera) : (readMany c ts).cap = c.cap := by
  induction ts generalizing c with
  | nil => rfl
  | cons t ts ih =>
      rw [readMany, ih, (usbRead_handles _ c).1]

theorem readMany_isOpen (ts : List ℚ) (c : USBCamera) :
    usbIsOpen (readMany c ts) = usbIsOpen c := by
  unfold usbIsOpen
  rw [readMany_cap]

theorem readMany_append (l₁ l₂ : List ℚ) (c : USBCamera) :
    readMany c (l₁ ++ l₂) = readMany (readMany c l₁) l₂ := by
  induction l₁ generalizing c with
  | nil => rfl
  | cons t l₁ ih => rw [List.cons_append, readMany, readMany, ih]

/-- After any run of successful reads on an open device, the window holds
exactly the last 30 of the previously windowed and newly read timestamps. -/
theorem readMany_frameTimes (ts : List ℚ) (c : USBCamera)
    (ho : usbIsOpen c = true) (hlen : c.frameTimes.length ≤ fpsWindow) :
    (readMany c ts).frameTimes = lastN fpsWindow (c.frameTimes ++ ts) := by
  induction ts generalizing c with
  | nil =>
      have h0 : c.frameTimes.length - fpsWindow = 0 := by omega
      simp [readMany, lastN, h0]
  | cons t ts ih =>
      rw [readMany]
      have hs := usbRead_success_state { capture := some ⟨480, 640⟩, now := t } c
        ⟨480, 640⟩ ho rfl
      have ho2 : usbIsOpen (usbRead { capture := some ⟨480, 640⟩, now := t } c).2 = true := by
        unfold usbIsOpen
        rw [(usbRead_handles _ c).1]
        exact ho
      have hlen2 : (usbRead { capture := some ⟨480, 640⟩, now := t } c).2.frameTimes.length
          ≤ fpsWindow := by
        rw [hs.1, trimTimes_eq_lastN]
        exact lastN_length_le _ _
      rw [ih _ ho2 hlen2, hs.1, trimTimes_eq_lastN, lastN_append_lastN]
      rw [List.append_assoc, List.singleton_append]

theorem getLastD_cons_cons (a b : ℚ) (m : List ℚ) :
    (a :: b :: m).getLastD 0 = (b :: m).getLastD 0 := by
  rw [List.getLastD_eq_getLast?, List.getLastD_eq_getLast?, List.getLast?_cons_cons]

theorem chain_lt_drop (n : Nat) (l : List ℚ) (h : l.Chain' (· < ·)) :
    (l.drop n).Chain' (· < ·) := by
  induction n generalizing l with
  | zero => simpa using h
  | succ n ih =>
      cases l with
      | nil => simp
      | cons a l =>
          rw [List.drop_succ_cons]
          exact ih l h.tail

theorem chain_lt_headD_getLastD :
    ∀ l : List ℚ, l.Chain' (· < ·) → 2 ≤ l.length → l.headD 0 < l.getLastD 0
  | [], _, hl => by simp at hl
  | [a], _, hl => by simp at hl
  | a :: b :: m, h, _ => by
      have hab : a < b := (List.chain'_cons.mp h).1
      cases m with
      | nil => simpa using hab
      | cons cc m' =>
          have hrec := chain_lt_headD_getLastD (b :: cc :: m')
            (List.chain'_cons.mp h).2 (by simp)
          rw [List.headD_cons] at hrec ⊢
          rw [getLastD_cons_cons]
          exact lt_trans hab hrec

/-- `open()` either preserves the window or clears it. -/
theorem usbOpen_frameTimes (env : USBOpenEnv) (c : USBCamera) :
    (usbOpen env c).2.frameTimes = c.frameTimes ∨ (usbOpen env c).2.frameTimes = [] := by
  unfold usbOpen
  by_cases h1 : env.ctorRaises <;> by_cases h2 : env.isOpened <;>
    by_cases h3 : env.raisesMid <;> by_cases h4 : env.testRead <;>
      simp [h1, h2, h3, h4, usbCleanup_frameTimes]

/-- Every call keeps the window within its fixed capacity. -/
theorem usbStep_frameTimes_le (c : USBCamera) (op : CamOp)
    (h : c.frameTimes.length ≤ fpsWindow) :
    (usbStep c op).frameTimes.length ≤ fpsWindow := by
  cases op with
  | doOpen env =>
      rw [usbStep]
      rcases usbOpen_frameTimes env c with he | he <;> rw [he]
      · exact h
      · simp
  | doRead env =>
      rw [usbStep]
      cases hr : (usbRead env c).1 with
      | none => rw [usbRead_none env c hr]; exact h
      | some f =>
          obtain ⟨ho, -, hcap, -⟩ := usbRead_some env c f hr
          rw [(usbRead_success_state env c f.data ho hcap).1, trimTimes_eq_lastN]
          exact lastN_length_le _ _
  | doClose =>
      rw [usbStep, usbClose, usbCleanup_frameTimes]
      exact h

/-- Capture instants 0, 1, …, 39 for the 40-read scenario. -/
def fortyTicks : List ℚ :=
  [0, 1, 2, 3, 4, 5, 6, 7, 8, 9, 10, 11, 12, 13, 14, 15, 16, 17, 18, 19,
   20, 21, 22, 23, 24, 25, 26, 27, 28, 29, 30, 31, 32, 33, 34, 35, 36, 37, 38, 39]

/-! Claim C4: the supervisor loops. -/

/-- Observing the cancellation flag at the top of either loop causes an
orderly exit: no further `open()`/`read()`, a final `close()`, status 0. -/
theorem mainLoop_cancel (env : SupEnv) (ph : Phase) (s : SupState) (fuel : Nat)
    (h : env.cancel s.step = true) :
    mainLoop env ph s (fuel + 1) = (s.trace ++ [Ev.evClose], some 0) := by
  cases ph <;> simp [mainLoop, h]

theorem initialConnect_trace (env : SupEnv) (fuel : Nat) :
    ∀ s : SupState, ∃ t, (initialConnect env s fuel).1.trace = s.trace ++ t := by
  induction fuel with
  | zero => intro s; exact ⟨[], by simp [initialConnect]⟩
  | succ fuel ih =>
      intro s
      rw [initialConnect]
      by_cases hok : env.opens s.openCalls
      · refine ⟨[Ev.evOpen (env.opens s.openCalls)], ?_⟩
        simp [hok]
      · obtain ⟨t, ht⟩ := ih
          { s with openCalls := s.openCalls + 1, step := s.step + 1 + 1,
                   trace := (s.trace ++ [Ev.evOpen (env.opens s.openCalls)]) ++ [Ev.evSleep] }
        refine ⟨[Ev.evOpen (env.opens s.openCalls), Ev.evSleep] ++ t, ?_⟩
        simp only [hok, Bool.false_eq_true, if_false] at ht ⊢
        rw [ht]
        simp

/-- However the initial connect loop starts, its first action is an
`open()` call — issued without consulting any cancellation flag. -/
theorem initialConnect_first (env : SupEnv) (fuel : Nat) (s : SupState) :
    ∃ t, (initialConnect env s (fuel + 1)).1.trace
      = s.trace ++ Ev.evOpen (env.opens s.openCalls) :: t := by
  rw [initialConnect]
  by_cases hok : env.opens s.openCalls
  · refine ⟨[], ?_⟩
    simp [hok]
  · obtain ⟨t, ht⟩ := initialConnect_trace env fuel
      { s with openCalls := s.openCalls + 1, step := s.step + 1 + 1,
               trace := (s.trace ++ [Ev.evOpen (env.opens s.openCalls)]) ++ [Ev.evSleep] }
    refine ⟨Ev.evSleep :: t, ?_⟩
    simp only [hok, Bool.false_eq_true, if_false] at ht ⊢
    rw [ht]
    simp

theorem mainLoop_trace (env : SupEnv) (fuel : Nat) :
    ∀ (ph : Phase) (s : SupState), ∃ t, (mainLoop env ph s fuel).1 = s.trace ++ t := by
  induction fuel with
  | zero => intro ph s; exact ⟨[], by cases ph <;> simp [mainLoop]⟩
  | succ fuel ih =>
      intro ph s
      cases ph with
      | running =>
          rw [mainLoop]
          by_cases hc : env.cancel s.step
          · exact ⟨[Ev.evClose], by simp [hc]⟩
          · by_cases hr : env.reads s.readCalls
            · obtain ⟨t, ht⟩ := ih Phase.running
                { s with readCalls := s.readCalls + 1, step := s.step + 1,
                         trace := s.trace ++ [Ev.evRead (env.reads s.readCalls)] }
              refine ⟨[Ev.evRead (env.reads s.readCalls)] ++ t, ?_⟩
              simp only [hc, Bool.false_eq_true, if_false, hr, if_true] at ht ⊢
              rw [ht]
              simp
            · obtain ⟨t, ht⟩ := ih Phase.reconnecting
                { s with readCalls := s.readCalls + 1, step := s.step + 1 + 1,
                         trace := (s.trace ++ [Ev.evRead (env.reads s.readCalls)]) ++ [Ev.evClose] }
              refine ⟨[Ev.evRead (env.reads s.readCalls), Ev.evClose] ++ t, ?_⟩
              simp only [hc, hr, Bool.false_eq_true, if_false] at ht ⊢
              rw [ht]
              simp
      | reconnecting =>
          rw [mainLoop]
          by_cases hc : env.cancel s.step
          · exact ⟨[Ev.evClose], by simp [hc]⟩
          · by_cases ho : env.opens s.openCalls
            · obtain ⟨t, ht⟩ := ih Phase.running
                { s with openCalls := s.openCalls + 1, step := s.step + 1,
                         trace := s.trace ++ [Ev.evOpen (env.opens s.openCalls)] }
              refine ⟨[Ev.evOpen (env.opens s.openCalls)] ++ t, ?_⟩
              simp only [hc, Bool.false_eq_true, if_false, ho, if_true] at ht ⊢
              rw [ht]
              simp
            · obtain ⟨t, ht⟩ := ih Phase.reconnecting
                { s with openCalls := s.openCalls + 1, step := s.step + 1 + 1,
                         trace := (s.trace ++ [Ev.evOpen (env.opens s.openCalls)]) ++ [Ev.evSleep] }
              refine ⟨[Ev.evOpen (env.opens s.openCalls), Ev.evSleep] ++ t, ?_⟩
              simp only [hc, ho, Bool.false_eq_true, if_false] at ht ⊢
              rw [ht]
              simp

/-- A run in which cancellation is signalled before the supervisor starts
but the camera never opens. -/
def cexSupEnv : SupEnv :=
  { opens := fun _ => false, reads := fun _ => true, cancel := fun _ => true }

/-- C4, counterexample: with the cancellation signal present from step 0
and the device absent, the initial connect loop (main.py lines 123-129,
which runs before the handlers are installed at lines 147-148 and consults
no flag) keeps issuing `open()` calls — here 5 of them in 5 loop
iterations — and the supervisor never performs the orderly
close-and-return-success exit the claim requires once cancellation is
observed. -/
theorem initial_connect_ignores_cancel_cex :
    cexSupEnv.cancel 0 = true ∧
      (supMain cexSupEnv 5).2 = none ∧
      (supMain cexSupEnv 5).1 =
        [Ev.evOpen false, Ev.evSleep, Ev.evOpen false, Ev.evSleep, Ev.evOpen false,
         Ev.evSleep, Ev.evOpen false, Ev.evSleep, Ev.evOpen false, Ev.evSleep] := by
  refine ⟨rfl, rfl, rfl⟩

/-- C4 (amended): once the supervisor's read loop or reconnect loop is
running, the cancellation flag is checked at the top of each iteration of
both, and on observing it the supervisor issues no further `open()` or
`read()` call, closes the device and returns the success status 0.  The
initial connect loop, however, runs before the signal handlers are
installed: whatever the cancellation input says, its first action is an
`open()` call issued without any flag check. -/
theorem cancel_checked_in_main_loops :
    (∀ (env : SupEnv) (ph : Phase) (s : SupState) (fuel : Nat),
      env.cancel s.step = true →
      mainLoop env ph s (fuel + 1) = (s.trace ++ [Ev.evClose], some 0)) ∧
    (∀ (env : SupEnv) (fuel : Nat),
      (supMain env (fuel + 1)).1.head? = some (Ev.evOpen (env.opens 0))) := by
  refine ⟨mainLoop_cancel, ?_⟩
  intro env fuel
  rw [supMain]
  obtain ⟨t, ht⟩ := initialConnect_first env fuel
    { step := 0, openCalls := 0, readCalls := 0, trace := [] }
  by_cases hr : (initialConnect env
      { step := 0, openCalls := 0, readCalls := 0, trace := [] } (fuel + 1)).2
  · simp only [hr, if_true]
    obtain ⟨t2, ht2⟩ := mainLoop_trace env (fuel + 1) Phase.running
      (initialConnect env { step := 0, openCalls := 0, readCalls := 0, trace := [] } (fuel + 1)).1
    rw [ht2, ht]
    simp
  · simp only [hr, Bool.false_eq_true, if_false]
    rw [ht]
    simp

/-- C4 witness: with cancellation observed at the top of the read loop, the
supervisor closes and returns 0 immediately. -/
theorem cancel_checked_in_main_loops_witness :
    cexSupEnv.cancel 0 = true ∧
      mainLoop cexSupEnv Phase.running
        { step := 0, openCalls := 0, readCalls := 0, trace := [] } 3
        = ([Ev.evClose], some 0) :=
  ⟨rfl, cancel_checked_in_main_loops.1 cexSupEnv Phase.running
    { step := 0, openCalls := 0, readCalls := 0, trace := [] } 2 rfl⟩

/-! Integrated-backend call traces and handle accounting. -/

theorem piCleanup_frameTimes (c : PiCamera) : (piCleanup c).frameTimes = c.frameTimes := by
  cases hc : c.picam <;> simp [piCleanup, hc]

theorem piCleanup_measuredFps (c : PiCamera) : (piCleanup c).measuredFps = c.measuredFps := by
  cases hc : c.picam <;> simp [piCleanup, hc]

/-- `read()` never changes the handle slot or the ghost accounting
(integrated backend). -/
theorem piRead_handles (env : ReadEnv) (c : PiCamera) :
    (piRead env c).2.picam = c.picam ∧ (piRead env c).2.acquired = c.acquired ∧
      (piRead env c).2.released = c.released ∧ (piRead env c).2.nextId = c.nextId := by
  unfold piRead
  by_cases ho : piIsOpen c = false
  · simp [ho]
  · cases hc : env.capture <;> simp [ho, hc]

/-- A successful `read()` happens only on an open device, increments the
sequence counter, and returns the frame built from the captured buffer
(integrated backend). -/
theorem piRead_some (env : ReadEnv) (c : PiCamera) (f : Frame)
    (h : (piRead env c).1 = some f) :
    piIsOpen c = true ∧ (piRead env c).2.sequence = c.sequence + 1 ∧
      env.capture = some f.data ∧
      f = Frame.create f.data (c.sequence + 1) env.now := by
  unfold piRead at h ⊢
  by_cases ho : piIsOpen c = false
  · simp [ho] at h
  · cases hc : env.capture with
    | none => simp [ho, hc] at h
    | some buf =>
        simp [ho, hc] at h ⊢
        subst h
        exact ⟨rfl, rfl⟩

/-- One call a client can make on a `PiCamera` instance. -/
inductive PiOp where
  | doOpen (env : PiOpenEnv)
  | doRead (env : ReadEnv)
  | doClose
deriving DecidableEq

/-- Apply one call to a `PiCamera`, discarding the return value. -/
def piStep (c : PiCamera) : PiOp → PiCamera
  | PiOp.doOpen env => (piOpen env c).2
  | PiOp.doRead env => (piRead env c).2
  | PiOp.doClose => piClose c

/-- Run a sequence of calls on a `PiCamera`. -/
def piExec (c : PiCamera) : List PiOp → PiCamera
  | [] => c
  | op :: ops => piExec (piStep c op) ops

/-- Identifiers of integrated-backend handles acquired at some point and
never explicitly released. -/
def piUnreleasedIds (c : PiCamera) : List Nat :=
  c.acquired.filter (fun i => decide (i ∉ c.released))

/-- Disciplined calls on the integrated backend: every `open()` is issued
while the handle slot is empty. -/
def piDisciplinedB (c : PiCamera) : List PiOp → Bool
  | [] => true
  | PiOp.doOpen env :: ops => c.picam.isNone && piDisciplinedB (piStep c (PiOp.doOpen env)) ops
  | PiOp.doRead env :: ops => piDisciplinedB (piStep c (PiOp.doRead env)) ops
  | PiOp.doClose :: ops => piDisciplinedB (piStep c PiOp.doClose) ops

/-- Handle-accounting invariant for the integrated backend. -/
abbrev piWF (c : PiCamera) : Prop :=
  (∀ i ∈ c.acquired, i < c.nextId) ∧ (∀ i ∈ c.released, i < c.nextId) ∧
    piUnreleasedIds c = (match c.picam with | some h => [h] | none => [])

theorem piCleanup_of_none (c : PiCamera) (h : c.picam = none) : piCleanup c = c := by
  simp [piCleanup, h]

/-- `read()` preserves the handle-accounting invariant (integrated
backend). -/
theorem piWF_read (env : ReadEnv) (c : PiCamera) (h : piWF c) :
    piWF (piRead env c).2 := by
  obtain ⟨h1, h2, h3⟩ := h
  obtain ⟨hc, ha, hr, hn⟩ := piRead_handles env c
  refine ⟨?_, ?_, ?_⟩
  · rw [ha, hn]; exact h1
  · rw [hr, hn]; exact h2
  · rw [hc]
    have : piUnreleasedIds (piRead env c).2 = piUnreleasedIds c := by
      simp [piUnreleasedIds, ha, hr]
    rw [this]
    exact h3

/-- `close()` (and `_cleanup`) preserves the invariant (integrated
backend). -/
theorem piWF_close (c : PiCamera) (h : piWF c) : piWF (piCleanup c) := by
  obtain ⟨h1, h2, h3⟩ := h
  cases hc : c.picam with
  | none => rw [piCleanup_of_none c hc]; exact ⟨h1, h2, by rw [h3, hc]⟩
  | some hd =>
      have hfilter : c.acquired.filter (fun i => decide (i ∉ c.released)) = [hd] := by
        have := h3
        rw [hc] at this
        exact this
      have hcl : piCleanup c = { c with picam := none, released := c.released ++ [hd] } := by
        simp [piCleanup, hc]
      rw [hcl]
      refine ⟨h1, ?_, ?_⟩
      · intro i hi
        rcases List.mem_append.mp hi with hi1 | hi1
        · exact h2 i hi1
        · have hm : hd ∈ c.acquired :=
            List.mem_of_mem_filter (by rw [hfilter]; exact List.mem_singleton_self _)
          rw [List.mem_singleton.mp hi1]
          exact h1 hd hm
      · simp only [piUnreleasedIds]
        rw [filter_unreleased_release, hfilter]
        simp

/-- `open()` issued with the slot empty preserves the invariant
(integrated backend). -/
theorem piWF_open (env : PiOpenEnv) (c : PiCamera) (h : piWF c)
    (hcap : c.picam = none) : piWF (piOpen env c).2 := by
  obtain ⟨h1, h2, h3⟩ := h
  have hunrel : c.acquired.filter (fun i => decide (i ∉ c.released)) = [] := by
    have := h3
    rw [hcap] at this
    exact this
  have hfresh : c.nextId ∉ c.released := by
    intro hmem
    exact absurd (h2 c.nextId hmem) (lt_irrefl c.nextId)
  have hb1 : ∀ i ∈ c.acquired ++ [c.nextId], i < c.nextId + 1 := by
    intro i hi
    rcases List.mem_append.mp hi with hi1 | hi1
    · exact Nat.lt_succ_of_lt (h1 i hi1)
    · rw [List.mem_singleton.mp hi1]; exact Nat.lt_succ_self _
  have hb2 : ∀ i ∈ c.released, i < c.nextId + 1 :=
    fun i hi => Nat.lt_succ_of_lt (h2 i hi)
  have hb2' : ∀ i ∈ c.released ++ [c.nextId], i < c.nextId + 1 := by
    intro i hi
    rcases List.mem_append.mp hi with hi1 | hi1
    · exact Nat.lt_succ_of_lt (h2 i hi1)
    · rw [List.mem_singleton.mp hi1]; exact Nat.lt_succ_self _
  by_cases e1 : env.importOk
  · by_cases e2 : env.ctorRaises
    · rw [piOpen]
      simp only [e1, e2, Bool.true_eq_false, if_true, if_false]
      rw [piCleanup_of_none c hcap]
      exact ⟨h1, h2, by rw [h3, hcap]⟩
    · by_cases e3 : env.laterRaises
      · rw [piOpen]
        simp only [e1, e2, e3, Bool.true_eq_false, if_true, if_false, piCleanup]
        refine ⟨hb1, hb2', ?_⟩
        simp only [piUnreleasedIds]
        exact unreleased_after_acquire_release _ _ _ hfresh hunrel
      · rw [piOpen]
        simp only [e1, e2, e3, Bool.true_eq_false, if_true, if_false]
        refine ⟨hb1, hb2, ?_⟩
        simp only [piUnreleasedIds]
        exact unreleased_after_acquire _ _ _ hfresh hunrel
  · rw [piOpen]
    simp [e1]
    exact ⟨h1, h2, h3⟩

/-- The invariant holds along every disciplined trace (integrated
backend). -/
theorem piWF_exec (ops : List PiOp) (c : PiCamera) (h : piWF c)
    (hd : piDisciplinedB c ops = true) : piWF (piExec c ops) := by
  induction ops generalizing c with
  | nil => exact h
  | cons op rest ih =>
      cases op with
      | doOpen env =>
          rw [piDisciplinedB, Bool.and_eq_true] at hd
          exact ih _ (piWF_open env c h (Option.isNone_iff_eq_none.mp hd.1)) hd.2
      | doRead env =>
          rw [piDisciplinedB] at hd
          exact ih _ (piWF_read env c h) hd
      | doClose =>
          rw [piDisciplinedB] at hd
          exact ih _ (piWF_close c h) hd

/-! Integrated-backend rolling window. -/

/-- `PiCamera.fps` property (picamera.py lines 199-206). -/
def piFps (c : PiCamera) : ℚ :=
  c.measuredFps

/-- State of a successful `read()` (integrated backend): the new window
and cached rate. -/
theorem piRead_success_state (env : ReadEnv) (c : PiCamera) (buf : Buffer)
    (ho : piIsOpen c = true) (hc : env.capture = some buf) :
    (piRead env c).2.frameTimes = trimTimes (c.frameTimes ++ [env.now]) ∧
      (piRead env c).2.measuredFps
        = updateFps c.measuredFps (trimTimes (c.frameTimes ++ [env.now])) := by
  unfold piRead
  simp [ho, hc]

/-- A run of successful `read()` calls at the given instants (integrated
backend). -/
def piReadMany (c : PiCamera) : List ℚ → PiCamera
  | [] => c
  | t :: ts => piReadMany (piRead { capture := some ⟨480, 640⟩, now := t } c).2 ts

theorem piReadMany_picam (ts : List ℚ) (c : PiCamera) :
    (piReadMany c ts).picam = c.picam := by
  induction ts generalizing c with
  | nil => rfl
  | cons t ts ih =>
      rw [piReadMany, ih, (piRead_handles _ c).1]

theorem piReadMany_isOpen (ts : List ℚ) (c : PiCamera) :
    piIsOpen (piReadMany c ts) = piIsOpen c := by
  unfold piIsOpen
  rw [piReadMany_picam]

theorem piReadMany_append (l₁ l₂ : List ℚ) (c : PiCamera) :
    piReadMany c (l₁ ++ l₂) = piReadMany (piReadMany c l₁) l₂ := by
  induction l₁ generalizing c with
  | nil => rfl
  | cons t l₁ ih => rw [List.cons_append, piReadMany, piReadMany, ih]

/-- After any run of successful reads on an open integrated camera, the
window holds exactly the last 30 of the previously windowed and newly read
timestamps. -/
theorem piReadMany_frameTimes (ts : List ℚ) (c : PiCamera)
    (ho : piIsOpen c = true) (hlen : c.frameTimes.length ≤ fpsWindow) :
    (piReadMany c ts).frameTimes = lastN fpsWindow (c.frameTimes ++ ts) := by
  induction ts generalizing c with
  | nil =>
      have h0 : c.frameTimes.length - fpsWindow = 0 := by omega
      simp [piReadMany, lastN, h0]
  | cons t ts ih =>
      rw [piReadMany]
      have hs := piRead_success_state { capture := some ⟨480, 640⟩, now := t } c
        ⟨480, 640⟩ ho rfl
      have ho2 : piIsOpen (piRead { capture := some ⟨480, 640⟩, now := t } c).2 = true := by
        unfold piIsOpen
        rw [(piRead_handles _ c).1]
        exact ho
      have hlen2 : (piRead { capture := some ⟨480, 640⟩, now := t } c).2.frameTimes.length
          ≤ fpsWindow := by
        rw [hs.1, trimTimes_eq_lastN]
        exact lastN_length_le _ _
      rw [ih _ ho2 hlen2, hs.1, trimTimes_eq_lastN, lastN_append_lastN]
      rw [List.append_assoc, List.singleton_append]

/-- A successful `open()` leaves the device open (integrated backend). -/
theorem piOpen_true_isOpen (env : PiOpenEnv) (c : PiCamera)
    (h : (piOpen env c).1 = true) : piIsOpen (piOpen env c).2 = true := by
  unfold piOpen at h ⊢
  by_cases h1 : env.importOk <;> by_cases h2 : env.ctorRaises <;>
    by_cases h3 : env.laterRaises <;>
      simp [h1, h2, h3, piIsOpen] at h ⊢

/-- `open()` either preserves the window or clears it (integrated
backend). -/
theorem piOpen_frameTimes (env : PiOpenEnv) (c : PiCamera) :
    (piOpen env c).2.frameTimes = c.frameTimes ∨ (piOpen env c).2.frameTimes = [] := by
  unfold piOpen
  by_cases h1 : env.importOk <;> by_cases h2 : env.ctorRaises <;>
    by_cases h3 : env.laterRaises <;>
      simp [h1, h2, h3, piCleanup_frameTimes]

/-- Every call keeps the window within its fixed capacity (integrated
backend). -/
theorem piStep_frameTimes_le (c : PiCamera) (op : PiOp)
    (h : c.frameTimes.length ≤ fpsWindow) :
    (piStep c op).frameTimes.length ≤ fpsWindow := by
  cases op with
  | doOpen env =>
      rw [piStep]
      rcases piOpen_frameTimes env c with he | he <;> rw [he]
      · exact h
      · simp
  | doRead env =>
      rw [piStep]
      cases hr : (piRead env c).1 with
      | none => rw [piRead_none env c hr]; exact h
      | some f =>
          obtain ⟨ho, -, hcap, -⟩ := piRead_some env c f hr
          rw [(piRead_success_state env c f.data ho hcap).1, trimTimes_eq_lastN]
          exact lastN_length_le _ _
  | doClose =>
      rw [piStep, piClose, piCleanup_frameTimes]
      exact h

/-- A fully successful `PiCamera.open()` environment. -/
def piOkEnv : PiOpenEnv :=
  { importOk := true, ctorRaises := false, laterRaises := false }

/-- Two consecutive successful `open()` calls on the integrated backend
with no `close()` between. -/
def c2picam : PiCamera :=
  piExec (initPi 640 480 10 2 30) [PiOp.doOpen piOkEnv, PiOp.doOpen piOkEnv]

/-- C2, counterexample: `open()` on an already-open device does **not**
release the previous handle — `self._cap = cv2.VideoCapture(...)` (usb.py
line 83) and `self._picam = Picamera2()` (picamera.py line 82) simply
overwrite the slot.  On either backend, after two successful opens,
handles 0 and 1 were both acquired and neither was ever released,
refuting "every open() call releases whatever handle the instance held
before acquiring a new one". -/
theorem double_open_two_unreleased_cex :
    (unreleasedIds c2cam = [0, 1] ∧ ¬ (unreleasedIds c2cam).length ≤ 1) ∧
      (piUnreleasedIds c2picam = [0, 1] ∧ ¬ (piUnreleasedIds c2picam).length ≤ 1) := by
  exact ⟨by decide, by decide⟩

/-- C2 (amended): on both backends, `open()` overwrites the handle slot
without releasing its previous occupant, so an `open()` on an already-open
device leaves the prior handle acquired and never released.  The
instance's slot references at most one handle, and along any call sequence
in which every `open()` is issued while the slot is empty (as `close()`
leaves it), at most one acquired handle is unreleased at any time —
for the USB backend and for the integrated backend alike. -/
theorem disciplined_handles_at_most_one :
    (∀ (ops : List CamOp) (c : USBCamera), usbWF c → disciplinedB c ops = true →
      (unreleasedIds (usbExec c ops)).length ≤ 1) ∧
    (∀ (ops : List PiOp) (c : PiCamera), piWF c → piDisciplinedB c ops = true →
      (piUnreleasedIds (piExec c ops)).length ≤ 1) := by
  constructor
  · intro ops c hwf hd
    obtain ⟨-, -, h3⟩ := usbWF_exec ops c hwf hd
    rw [h3]
    cases (usbExec c ops).cap <;> simp
  · intro ops c hwf hd
    obtain ⟨-, -, h3⟩ := piWF_exec ops c hwf hd
    rw [h3]
    cases (piExec c ops).picam <;> simp

/-- C2 witness: open–read–close–reopen–close from construction is
disciplined and never accumulates unreleased handles, on either backend. -/
theorem disciplined_handles_at_most_one_witness :
    (usbWF (initUSB 0 640 480 10 30) ∧
      disciplinedB (initUSB 0 640 480 10 30)
        [CamOp.doOpen okOpenEnv, CamOp.doRead { capture := some ⟨480, 640⟩, now := 0 },
         CamOp.doClose, CamOp.doOpen okOpenEnv, CamOp.doClose] = true ∧
      (unreleasedIds (usbExec (initUSB 0 640 480 10 30)
        [CamOp.doOpen okOpenEnv, CamOp.doRead { capture := some ⟨480, 640⟩, now := 0 },
         CamOp.doClose, CamOp.doOpen okOpenEnv, CamOp.doClose])).length ≤ 1) ∧
    (piWF (initPi 640 480 10 2 30) ∧
      piDisciplinedB (initPi 640 480 10 2 30)
        [PiOp.doOpen piOkEnv, PiOp.doRead { capture := some ⟨480, 640⟩, now := 0 },
         PiOp.doClose, PiOp.doOpen piOkEnv, PiOp.doClose] = true ∧
      (piUnreleasedIds (piExec (initPi 640 480 10 2 30)
        [PiOp.doOpen piOkEnv, PiOp.doRead { capture := some ⟨480, 640⟩, now := 0 },
         PiOp.doClose, PiOp.doOpen piOkEnv, PiOp.doClose])).length ≤ 1) :=
  ⟨⟨by decide, by decide,
    disciplined_handles_at_most_one.1
      [CamOp.doOpen okOpenEnv, CamOp.doRead { capture := some ⟨480, 640⟩, now := 0 },
       CamOp.doClose, CamOp.doOpen okOpenEnv, CamOp.doClose]
      (initUSB 0 640 480 10 30) (by decide) (by decide)⟩,
   ⟨by decide, by decide,
    disciplined_handles_at_most_one.2
      [PiOp.doOpen piOkEnv, PiOp.doRead { capture := some ⟨480, 640⟩, now := 0 },
       PiOp.doClose, PiOp.doOpen piOkEnv, PiOp.doClose]
      (initPi 640 480 10 2 30) (by decide) (by decide)⟩⟩

/-- C7 (confirmed): on both backends the rolling timestamp window never
holds more than its fixed capacity of 30 entries along any call trace from
construction, and entries are evicted oldest first: after 40 successive
successful reads at strictly increasing instants, the window holds exactly
the most recent 30 timestamps and `measured_fps` is computed from them
alone, as `(30 - 1) / (newest - oldest of those 30)`. -/
theorem fps_window_capacity_and_eviction :
    (∀ (ops : List CamOp) (d w ht fp ri : Nat),
      (usbExec (initUSB d w ht fp ri) ops).frameTimes.length ≤ fpsWindow) ∧
    (∀ (ops : List PiOp) (w ht fp : Nat) (fd : ℚ) (ri : Nat),
      (piExec (initPi w ht fp fd ri) ops).frameTimes.length ≤ fpsWindow) ∧
    (∀ (envO : USBOpenEnv) (c : USBCamera) (ts : List ℚ),
      (usbOpen envO c).1 = true → ts.length = 40 → ts.Chain' (· < ·) →
      (readMany (usbOpen envO c).2 ts).frameTimes = ts.drop 10 ∧
        usbFps (readMany (usbOpen envO c).2 ts) =
          (29 : ℚ) / ((ts.drop 10).getLastD 0 - (ts.drop 10).headD 0)) ∧
    (∀ (envO : PiOpenEnv) (c : PiCamera) (ts : List ℚ),
      (piOpen envO c).1 = true → ts.length = 40 → ts.Chain' (· < ·) →
      (piReadMany (piOpen envO c).2 ts).frameTimes = ts.drop 10 ∧
        piFps (piReadMany (piOpen envO c).2 ts) =
          (29 : ℚ) / ((ts.drop 10).getLastD 0 - (ts.drop 10).headD 0)) := by
  refine ⟨?_, ?_, ?_, ?_⟩
  · intro ops d w ht fp ri
    suffices hgen : ∀ (ops : List CamOp) (c : USBCamera),
        c.frameTimes.length ≤ fpsWindow →
        (usbExec c ops).frameTimes.length ≤ fpsWindow by
      exact hgen ops _ (by simp [initUSB])
    intro ops
    induction ops with
    | nil => intro c hc; exact hc
    | cons op rest ih => intro c hc; exact ih _ (usbStep_frameTimes_le c op hc)
  · intro ops w ht fp fd ri
    suffices hgen : ∀ (ops : List PiOp) (c : PiCamera),
        c.frameTimes.length ≤ fpsWindow →
        (piExec c ops).frameTimes.length ≤ fpsWindow by
      exact hgen ops _ (by simp [initPi])
    intro ops
    induction ops with
    | nil => intro c hc; exact hc
    | cons op rest ih => intro c hc; exact ih _ (piStep_frameTimes_le c op hc)
  · intro envO c ts hopen h40 hchain
    have ho : usbIsOpen (usbOpen envO c).2 = true := by
      rw [usbOpen_isOpen]; exact hopen
    have hft : (usbOpen envO c).2.frameTimes = [] := (usbOpen_true_state envO c hopen).2
    have hlen0 : (usbOpen envO c).2.frameTimes.length ≤ fpsWindow := by
      rw [hft]; simp
    have hwin : (readMany (usbOpen envO c).2 ts).frameTimes = ts.drop 10 := by
      rw [readMany_frameTimes ts _ ho hlen0, hft, List.nil_append, lastN, h40]
      norm_num [fpsWindow]
    refine ⟨hwin, ?_⟩
    have hne : ts ≠ [] := by
      intro h
      rw [h] at h40
      simp at h40
    have hsplit : ts.dropLast ++ [ts.getLast hne] = ts := List.dropLast_concat_getLast hne
    have ho39 : usbIsOpen (readMany (usbOpen envO c).2 ts.dropLast) = true := by
      rw [readMany_isOpen]; exact ho
    have hdecomp : readMany (usbOpen envO c).2 ts =
        (usbRead { capture := some ⟨480, 640⟩, now := ts.getLast hne }
          (readMany (usbOpen envO c).2 ts.dropLast)).2 := by
      conv_lhs => rw [← hsplit]
      rw [readMany_append, readMany, readMany]
    have hs := usbRead_success_state
      { capture := some ⟨480, 640⟩, now := ts.getLast hne }
      (readMany (usbOpen envO c).2 ts.dropLast) ⟨480, 640⟩ ho39 rfl
    have hw : trimTimes ((readMany (usbOpen envO c).2 ts.dropLast).frameTimes
        ++ [ts.getLast hne]) = ts.drop 10 := by
      rw [← hs.1, ← hdecomp]
      exact hwin
    have hl30 : (ts.drop 10).length = 30 := by
      rw [List.length_drop, h40]
    have hpos : 0 < (ts.drop 10).getLastD 0 - (ts.drop 10).headD 0 := by
      have := chain_lt_headD_getLastD (ts.drop 10) (chain_lt_drop 10 ts hchain)
        (by rw [hl30]; norm_num)
      linarith
    rw [usbFps, hdecomp, hs.2, hw, updateFps,
      if_pos (by rw [hl30]; norm_num : 2 ≤ (ts.drop 10).length), if_pos hpos, hl30]
    norm_num
  · intro envO c ts hopen h40 hchain
    have ho : piIsOpen (piOpen envO c).2 = true := piOpen_true_isOpen envO c hopen
    have hft : (piOpen envO c).2.frameTimes = [] := (piOpen_true_state envO c hopen).2
    have hlen0 : (piOpen envO c).2.frameTimes.length ≤ fpsWindow := by
      rw [hft]; simp
    have hwin : (piReadMany (piOpen envO c).2 ts).frameTimes = ts.drop 10 := by
      rw [piReadMany_frameTimes ts _ ho hlen0, hft, List.nil_append, lastN, h40]
      norm_num [fpsWindow]
    refine ⟨hwin, ?_⟩
    have hne : ts ≠ [] := by
      intro h
      rw [h] at h40
      simp at h40
    have hsplit : ts.dropLast ++ [ts.getLast hne] = ts := List.dropLast_concat_getLast hne
    have ho39 : piIsOpen (piReadMany (piOpen envO c).2 ts.dropLast) = true := by
      rw [piReadMany_isOpen]; exact ho
    have hdecomp : piReadMany (piOpen envO c).2 ts =
        (piRead { capture := some ⟨480, 640⟩, now := ts.getLast hne }
          (piReadMany (piOpen envO c).2 ts.dropLast)).2 := by
      conv_lhs => rw [← hsplit]
      rw [piReadMany_append, piReadMany, piReadMany]
    have hs := piRead_success_state
      { capture := some ⟨480, 640⟩, now := ts.getLast hne }
      (piReadMany (piOpen envO c).2 ts.dropLast) ⟨480, 640⟩ ho39 rfl
    have hw : trimTimes ((piReadMany (piOpen envO c).2 ts.dropLast).frameTimes
        ++ [ts.getLast hne]) = ts.drop 10 := by
      rw [← hs.1, ← hdecomp]
      exact hwin
    have hl30 : (ts.drop 10).length = 30 := by
      rw [List.length_drop, h40]
    have hpos : 0 < (ts.drop 10).getLastD 0 - (ts.drop 10).headD 0 := by
      have := chain_lt_headD_getLastD (ts.drop 10) (chain_lt_drop 10 ts hchain)
        (by rw [hl30]; norm_num)
      linarith
    rw [piFps, hdecomp, hs.2, hw, updateFps,
      if_pos (by rw [hl30]; norm_num : 2 ≤ (ts.drop 10).length), if_pos hpos, hl30]
    norm_num

/-- C7 witness: 40 successful reads at instants 0..39 on a freshly opened
camera of either backend leave exactly the 30 most recent timestamps
(10..39) in the window, and the measured rate is computed from those
alone. -/
theorem fps_window_capacity_and_eviction_witness :
    (usbOpen okOpenEnv (initUSB 0 640 480 10 30)).1 = true ∧
      (piOpen piOkEnv (initPi 640 480 10 2 30)).1 = true ∧
      fortyTicks.length = 40 ∧ fortyTicks.Chain' (· < ·) ∧
      (readMany (usbOpen okOpenEnv (initUSB 0 640 480 10 30)).2 fortyTicks).frameTimes
        = fortyTicks.drop 10 ∧
      usbFps (readMany (usbOpen okOpenEnv (initUSB 0 640 480 10 30)).2 fortyTicks)
        = (29 : ℚ) / ((fortyTicks.drop 10).getLastD 0 - (fortyTicks.drop 10).headD 0) ∧
      (piReadMany (piOpen piOkEnv (initPi 640 480 10 2 30)).2 fortyTicks).frameTimes
        = fortyTicks.drop 10 ∧
      piFps (piReadMany (piOpen piOkEnv (initPi 640 480 10 2 30)).2 fortyTicks)
        = (29 : ℚ) / ((fortyTicks.drop 10).getLastD 0 - (fortyTicks.drop 10).headD 0) := by
  have hchain : fortyTicks.Chain' (· < ·) := by
    simp only [fortyTicks, List.chain'_cons, List.chain'_singleton, and_true]
    decide
  have h := fps_window_capacity_and_eviction.2.2.1 okOpenEnv (initUSB 0 640 480 10 30)
    fortyTicks (by decide) (by decide) hchain
  have h2 := fps_window_capacity_and_eviction.2.2.2 piOkEnv (initPi 640 480 10 2 30)
    fortyTicks (by decide) (by decide) hchain
  exact ⟨by decide, by decide, by decide, hchain, h.1, h.2, h2.1, h2.2⟩
